import Mathlib

/-!
Verification development for the BLE proximity engine in
`src/send-rssi-monarch.py` (repository `monarch-bluetooth-poc-scripts`).

The script tracks a list of tenants (known phones).  For every BLE
advertisement it updates the matching tenant's exponentially weighted
moving average of the RSSI, a rolling time window of packet timestamps,
and a two-state NEAR/FAR classifier with hysteresis
(`on_ble_packet`, lines 257-295).  A periodic broadcaster serializes the
tenants (`_serialize_tenants`, lines 202-219) and pushes them to
websocket subscribers (`broadcast_tenants`, lines 240-251), and the
tenant registry can be hot-reloaded from a JSON file
(`read_tenants_and_macs_file`, lines 71-87, and `sync_known_tenants`,
lines 89-140).

Numbers: Python floats are embedded as exact rationals (`ℚ`); times and
RSSI values in the script are plain arithmetic on floats with no
overflow or rounding subtleties relevant to the claims.  Python strings
are embedded as `String`; `str.upper()` is embedded as `strUpper`,
ASCII uppercasing applied character by character (MAC address strings
are ASCII).  Mutation of tenant dictionaries is embedded as functional
update; the script is single-threaded per operation (asyncio
cooperative scheduling), so each callback or tick is one atomic
function on the state.
-/

/-- ASCII uppercase of one character, the action of Python's
`str.upper()` on the ASCII characters appearing in MAC address
strings (codepoints 97-122 map down by 32, others are unchanged). -/
def upperChar (c : Char) : Char :=
  if 97 ≤ c.toNat ∧ c.toNat ≤ 122 then Char.ofNat (c.toNat - 32) else c

/-- Uppercase an entire string character-wise; embedding of Python's
`s.upper()` as used on MAC addresses in the script. -/
def strUpper (s : String) : String := ⟨s.data.map upperChar⟩

/-- Tunable constant, line 34: average RSSI (in dBm) required to classify NEAR. -/
def ENTER_THRESHOLD : ℚ := -65

/-- Tunable constant, line 38: drop-back threshold for the NEAR-to-FAR transition. -/
def EXIT_THRESHOLD : ℚ := -69

/-- Tunable constant, line 44: how far back (seconds) packet timestamps are kept. -/
def WINDOW_SEC : ℚ := 4

/-- Tunable constant, line 45: minimum number of packets in the window for NEAR. -/
def PACKETS_REQUIRED : Nat := 4

/-- Tunable constant, line 55: tenants not seen for this long (seconds) are not broadcast. -/
def TENANT_TIMEOUT_SEC : ℚ := 10

/-- Initial value of the process-wide ALPHA, line 43 (0.8). -/
def ALPHA_INIT : ℚ := mkRat 4 5

/-- Value assigned to ALPHA when someone is near, line 326 (0.3). -/
def ALPHA_NEAR : ℚ := mkRat 3 10

/-- Value assigned to ALPHA when no one is near, line 329 (0.8). -/
def ALPHA_FAR : ℚ := mkRat 4 5

/-- One tracked tenant: the dictionary created in `sync_known_tenants`
(lines 112-121) with the live fields mutated by `on_ble_packet`. -/
structure Tenant where
  macAddress : String
  tenantId : String
  ewma : Option ℚ
  packetTimes : List ℚ
  isNear : Bool
  lastSeenTs : Option ℚ
  extraRssis : List ℚ
deriving DecidableEq

/-- One entry of the serialized snapshot built by `_serialize_tenants`
(lines 202-219): the tenant's dictionary copy with `packetTimes`
replaced by `packetCount`. -/
structure SerializedTenant where
  macAddress : String
  tenantId : String
  ewma : Option ℚ
  isNear : Bool
  lastSeenTs : Option ℚ
  packetCount : Nat
  extraRssis : List ℚ
deriving DecidableEq

/-- One row of the registry file: a `{id, mac}` object from the
`tenantsAndMacs` list (lines 99-101). -/
structure RegEntry where
  id : String
  mac : String
deriving DecidableEq

/-- EWMA smoothing step (lines 267-270): the first observation seeds the
average with the raw sample, later observations blend with weight
`alpha` on the new sample. -/
def newEwma (alpha rssi : ℚ) : Option ℚ → ℚ
  | none => rssi
  | some prev => alpha * rssi + (1 - alpha) * prev

/-- Embedding of the per-tenant body of `on_ble_packet` (lines 263-294)
for the tenant that matched the advertiser address: EWMA smoothing
(lines 267-270), rolling window append and front eviction
(lines 273-275), RSSI collection for broadcast (line 279), the
two-state hysteresis machine (lines 282-291), and the last-seen
timestamp (line 294). -/
def updateTenant (alpha rssi now : ℚ) (t : Tenant) : Tenant :=
  let e : ℚ := newEwma alpha rssi t.ewma
  let times := (t.packetTimes ++ [now]).dropWhile fun x => decide (WINDOW_SEC < now - x)
  let near : Bool :=
    if t.isNear then
      if e < EXIT_THRESHOLD ∨ times.length < PACKETS_REQUIRED then false else t.isNear
    else
      if ENTER_THRESHOLD ≤ e ∧ PACKETS_REQUIRED ≤ times.length then true else t.isNear
  { t with ewma := some e, packetTimes := times, isNear := near,
           extraRssis := t.extraRssis ++ [rssi], lastSeenTs := some now }

/-- Embedding of the whole `on_ble_packet` callback (lines 257-295):
scan the tenant list, update the first tenant whose uppercased MAC
equals the uppercased advertiser address, then break. -/
def on_ble_packet (alpha : ℚ) (addr : String) (rssi now : ℚ) : List Tenant → List Tenant
  | [] => []
  | t :: rest =>
    if strUpper addr = strUpper t.macAddress then
      updateTenant alpha rssi now t :: rest
    else
      t :: on_ble_packet alpha addr rssi now rest

/-- The skip condition of `_serialize_tenants` (line 206): the tenant is
dropped from the snapshot when `lastSeenTs` is set and more than
`TENANT_TIMEOUT_SEC` old. -/
def staleSkip (now : ℚ) (t : Tenant) : Bool :=
  match t.lastSeenTs with
  | none => false
  | some ls => decide (TENANT_TIMEOUT_SEC < now - ls)

/-- Embedding of one loop iteration of `_serialize_tenants`
(lines 204-218): either skip the tenant (stale), or emit its serialized
copy (with `packetCount` for `packetTimes`) and clear its `extraRssis`
buffer.  Clearing an already empty buffer is the identity, so both
sides of the `if t["extraRssis"]` guard (lines 214-216) are covered by
one equation. -/
def serializeOne (now : ℚ) (t : Tenant) : Option SerializedTenant × Tenant :=
  if staleSkip now t then (none, t)
  else
    (some { macAddress := t.macAddress, tenantId := t.tenantId, ewma := t.ewma,
            isNear := t.isNear, lastSeenTs := t.lastSeenTs,
            packetCount := t.packetTimes.length, extraRssis := t.extraRssis },
     { t with extraRssis := [] })

/-- Embedding of `_serialize_tenants` (lines 202-219) over the whole
tenant list: the snapshot of non-stale tenants in order, paired with
the post-serialization tenant list (buffers drained). -/
def serialize_tenants (now : ℚ) : List Tenant → List SerializedTenant × List Tenant
  | [] => ([], [])
  | t :: rest =>
    let p := serializeOne now t
    let q := serialize_tenants now rest
    ((match p.1 with
      | some s => s :: q.1
      | none => q.1), p.2 :: q.2)

/-- Embedding of `broadcast_tenants` (lines 240-251): with zero
connected clients it returns immediately (line 241-242) and no snapshot
is built; otherwise it serializes the tenants and sends the payload.
The result is the payload (if any) and the updated tenant list. -/
def broadcast_tenants (numClients : Nat) (now : ℚ) (ts : List Tenant) :
    Option (List SerializedTenant) × List Tenant :=
  if numClients = 0 then (none, ts)
  else ((serialize_tenants now ts).1, (serialize_tenants now ts).2)

/-- A fresh tenant entry as created in `sync_known_tenants`
(lines 112-121): live state empty, classifier FAR. -/
def freshTenant (mac tenantId : String) : Tenant :=
  { macAddress := mac, tenantId := tenantId, ewma := none, packetTimes := [],
    isNear := false, lastSeenTs := none, extraRssis := [] }

/-- The dictionary `existing_by_mac` (line 94) as a lookup: last
tenant in the old list whose uppercased MAC equals `mac` (a Python dict
comprehension is last-write-wins). -/
def lookupByMac (known : List Tenant) (mac : String) : Option Tenant :=
  known.reverse.find? fun t => strUpper t.macAddress == mac

/-- The `tenantId` finally stored in a carried-over tenant entry.
All snapshot rows with the same normalized MAC look up the SAME
dictionary object in `existing_by_mac` (line 105), overwrite its
`tenantId` in place (line 107) and append a reference to it
(line 108), so after the loop every such list entry holds the id of
the LAST row with that normalized MAC.  The default is returned only
when no row has that MAC (unreachable when the row itself belongs to
the snapshot). -/
def lastIdFor (snapshot : List RegEntry) (m : String) (dflt : String) : String :=
  ((snapshot.reverse.find? fun r => strUpper r.mac == m).map RegEntry.id).getD dflt

/-- The final value of one row of the list built by
`sync_known_tenants` (lines 99-123): an existing tenant with the same
normalized MAC is carried over with every live field intact and its
`tenantId` mutated in place — because duplicate rows share one
dictionary, the value read after the loop is the id of the last row
with this normalized MAC (`lastIdFor`); a row with no existing tenant
creates a fresh dictionary of its own, carrying its own id even under
duplicates. -/
def syncOne (snapshot : List RegEntry) (known : List Tenant) (e : RegEntry) : Tenant :=
  match lookupByMac known (strUpper e.mac) with
  | some ex => { ex with tenantId := lastIdFor snapshot (strUpper e.mac) e.id }
  | none => freshTenant (strUpper e.mac) e.id

/-- Embedding of `sync_known_tenants` (lines 89-140) as the final state
of `new_known_tenants` after the loop: one entry per snapshot row (the
removal loop in lines 126-129 only prints and the new list simply
omits old MACs).  In-place mutation of shared carried-over
dictionaries is reflected in `syncOne` via `lastIdFor`. -/
def sync_known_tenants (snapshot : List RegEntry) (known : List Tenant) : List Tenant :=
  snapshot.map (syncOne snapshot known)

/-- Feeding a sequence of `(rssi, time)` observations to one tenant:
iterated `updateTenant`, the per-tenant effect of a run of BLE
callbacks all matching this tenant. -/
def feedObservations (alpha : ℚ) (obs : List (ℚ × ℚ)) (t : Tenant) : Tenant :=
  obs.foldl (fun acc o => updateTenant alpha o.1 o.2 acc) t

/-- Scenario state of the spec's concrete test: a fresh tenant after
four observations at -60 dBm, 0.1 s apart, with ALPHA = 0.8. -/
def scenarioAfterStrong : Tenant :=
  feedObservations ALPHA_INIT
    [((-60 : ℚ), (0 : ℚ)), (-60, mkRat 1 10), (-60, mkRat 2 10), (-60, mkRat 3 10)]
    (freshTenant "AA:BB:CC:DD:EE:FF" "T")

/-- Scenario state after one further observation at -72 dBm (t = 0.4 s). -/
def scenarioAfterWeak1 : Tenant :=
  updateTenant ALPHA_INIT (-72) (mkRat 4 10) scenarioAfterStrong

/-- Scenario state after two further observations at -72 dBm (t = 0.5 s). -/
def scenarioAfterWeak2 : Tenant :=
  updateTenant ALPHA_INIT (-72) (mkRat 5 10) scenarioAfterWeak1

/-- Scenario state after three further observations at -72 dBm (t = 0.6 s). -/
def scenarioAfterWeak3 : Tenant :=
  updateTenant ALPHA_INIT (-72) (mkRat 6 10) scenarioAfterWeak2

/-- The process-wide mutable state relevant to smoothing: the single
global `ALPHA` (line 43, mutated in lines 324-330) and the tenant
list. -/
structure Engine where
  alpha : ℚ
  knownTenants : List Tenant
deriving DecidableEq

/-- Whether any tenant is currently NEAR (line 322). -/
def anyoneNear (ts : List Tenant) : Bool := ts.any (·.isNear)

/-- A BLE callback at engine level: the single process-wide `alpha`
current at this observation is used for whichever tenant matches. -/
def engineOnBlePacket (addr : String) (rssi now : ℚ) (e : Engine) : Engine :=
  { e with knownTenants := on_ble_packet e.alpha addr rssi now e.knownTenants }

/-- The ALPHA adaptation performed once per broadcast tick
(lines 322-330): 0.3 when someone is near, 0.8 otherwise, written only
when the value actually changes. -/
def engineTickAlpha (e : Engine) : Engine :=
  if anyoneNear e.knownTenants then
    if e.alpha ≠ ALPHA_NEAR then { e with alpha := ALPHA_NEAR } else e
  else
    if e.alpha ≠ ALPHA_FAR then { e with alpha := ALPHA_FAR } else e

/-! Helper lemmas. -/

/-- Converting a small codepoint to a character and back is the
identity (used for ASCII uppercase reasoning). -/
theorem char_toNat_ofNat_lt (m : Nat) (h : m < 55296) : (Char.ofNat m).toNat = m := by
  unfold Char.ofNat
  rw [dif_pos (Or.inl h)]
  rfl

/-- ASCII uppercasing is idempotent on characters. -/
theorem upperChar_idem (c : Char) : upperChar (upperChar c) = upperChar c := by
  unfold upperChar
  by_cases h : 97 ≤ c.toNat ∧ c.toNat ≤ 122
  · rw [if_pos h]
    have h2 : (Char.ofNat (c.toNat - 32)).toNat = c.toNat - 32 :=
      char_toNat_ofNat_lt _ (by omega)
    rw [if_neg (by rw [h2]; omega)]
  · rw [if_neg h, if_neg h]

/-- ASCII uppercasing is idempotent on strings. -/
theorem strUpper_strUpper (s : String) : strUpper (strUpper s) = strUpper s := by
  unfold strUpper
  congr 1
  simp only [List.map_map]
  exact List.map_congr_left fun c _ => upperChar_idem c

/-- Feeding observations concatenates their RSSI values onto the
pending `extraRssis` buffer, in arrival order. -/
theorem feed_extraRssis (alpha : ℚ) (obs : List (ℚ × ℚ)) (t : Tenant) :
    (feedObservations alpha obs t).extraRssis = t.extraRssis ++ obs.map Prod.fst := by
  induction obs generalizing t with
  | nil => simp [feedObservations]
  | cons o rest ih =>
    simp only [feedObservations, List.foldl_cons] at *
    rw [ih]
    simp [updateTenant]

/-- Structure of `serialize_tenants`: the snapshot is the filterMap of
the per-tenant serialization, the updated list is its map. -/
theorem serialize_tenants_eq (now : ℚ) (ts : List Tenant) :
    serialize_tenants now ts =
      (ts.filterMap (fun u => (serializeOne now u).1),
       ts.map fun u => (serializeOne now u).2) := by
  induction ts with
  | nil => rfl
  | cons t rest ih =>
    simp only [serialize_tenants, ih, List.filterMap_cons, List.map_cons]
    cases h : (serializeOne now t).1 <;> simp [h]

/-- Each reconciled entry carries the normalized MAC of its snapshot
row. -/
theorem syncOne_macAddress (snapshot : List RegEntry) (known : List Tenant) (e : RegEntry) :
    strUpper (syncOne snapshot known e).macAddress = strUpper e.mac := by
  unfold syncOne
  cases h : lookupByMac known (strUpper e.mac) with
  | none => simp [freshTenant, strUpper_strUpper]
  | some ex =>
    have hp := List.find?_some h
    have := eq_of_beq hp
    simpa using this

/-- The normalized MACs of the reconciled list are exactly the
normalized MACs of the snapshot, row by row. -/
theorem sync_macs_eq (snapshot : List RegEntry) (known : List Tenant) :
    ((sync_known_tenants snapshot known).map fun t => strUpper t.macAddress)
      = snapshot.map fun e => strUpper e.mac := by
  unfold sync_known_tenants
  rw [List.map_map]
  exact List.map_congr_left fun e _ => syncOne_macAddress snapshot known e

/-- When the snapshot has no duplicate normalized MACs, the id left by
the in-place mutations for a row's MAC is that row's own id. -/
theorem lastIdFor_of_nodup (snapshot : List RegEntry) (e : RegEntry) (dflt : String)
    (hn : (snapshot.map fun r => strUpper r.mac).Nodup) (he : e ∈ snapshot) :
    lastIdFor snapshot (strUpper e.mac) dflt = e.id := by
  unfold lastIdFor
  cases hf : snapshot.reverse.find? fun r => strUpper r.mac == strUpper e.mac with
  | none =>
    exact absurd (beq_self_eq_true (strUpper e.mac))
      (List.find?_eq_none.mp hf e (List.mem_reverse.mpr he))
  | some r =>
    have hr : r ∈ snapshot := List.mem_reverse.mp (List.mem_of_find?_eq_some hf)
    have hmac : strUpper r.mac = strUpper e.mac := by
      have hp := List.find?_some hf
      simpa using hp
    have : r = e := List.inj_on_of_nodup_map hn hr he hmac
    rw [this]
    rfl

/-! Claim theorems. -/

/-- C5: the first observation sets `ewma` to exactly the observed
signal strength, each subsequent observation sets it to
`ALPHA * signalStrength + (1 - ALPHA) * previous`, and the value of
ALPHA used is the single process-wide value current at that observation
(the engine's `alpha` field, not a per-tenant parameter). -/
theorem ewma_seed_and_blend (alpha rssi now : ℚ) (t : Tenant) (eng : Engine) (addr : String) :
    (updateTenant alpha rssi now t).ewma = some (newEwma alpha rssi t.ewma)
    ∧ (t.ewma = none → (updateTenant alpha rssi now t).ewma = some rssi)
    ∧ (∀ prev, t.ewma = some prev →
        (updateTenant alpha rssi now t).ewma
          = some (alpha * rssi + (1 - alpha) * prev))
    ∧ engineOnBlePacket addr rssi now eng
        = { alpha := eng.alpha,
            knownTenants := on_ble_packet eng.alpha addr rssi now eng.knownTenants } := by
  refine ⟨rfl, ?_, ?_, rfl⟩
  · intro h
    simp [updateTenant, newEwma, h]
  · intro prev h
    simp [updateTenant, newEwma, h]

theorem ewma_seed_and_blend_witness :
    (updateTenant ALPHA_INIT (-60) 0 (freshTenant "AA" "T")).ewma = some (-60)
    ∧ (updateTenant ALPHA_INIT (-72) 1
         (updateTenant ALPHA_INIT (-60) 0 (freshTenant "AA" "T"))).ewma
        = some (ALPHA_INIT * (-72) + (1 - ALPHA_INIT) * (-60)) :=
  ⟨(ewma_seed_and_blend ALPHA_INIT (-60) 0 (freshTenant "AA" "T")
      ⟨ALPHA_INIT, []⟩ "AA").2.1 rfl,
   (ewma_seed_and_blend ALPHA_INIT (-72) 1
      (updateTenant ALPHA_INIT (-60) 0 (freshTenant "AA" "T"))
      ⟨ALPHA_INIT, []⟩ "AA").2.2.1 (-60)
     ((ewma_seed_and_blend ALPHA_INIT (-60) 0 (freshTenant "AA" "T")
        ⟨ALPHA_INIT, []⟩ "AA").2.1 rfl)⟩

/-- Characterization of the classifier output of `updateTenant` (the
two-state machine of lines 281-291), definitional. -/
theorem updateTenant_isNear_eq (alpha rssi now : ℚ) (t : Tenant) :
    (updateTenant alpha rssi now t).isNear =
      (if t.isNear then
        (if newEwma alpha rssi t.ewma < EXIT_THRESHOLD
            ∨ (updateTenant alpha rssi now t).packetTimes.length < PACKETS_REQUIRED
         then false else t.isNear)
       else
        (if ENTER_THRESHOLD ≤ newEwma alpha rssi t.ewma
            ∧ PACKETS_REQUIRED ≤ (updateTenant alpha rssi now t).packetTimes.length
         then true else t.isNear)) := rfl

/-- C4: after an update, a FAR tenant has become NEAR if and only if
the new EWMA is at least `ENTER_THRESHOLD` and the evicted window holds
at least `PACKETS_REQUIRED` timestamps; a NEAR tenant has become FAR if
and only if the new EWMA is below `EXIT_THRESHOLD` or the window is
starved; consequently a NEAR tenant whose EWMA is in the hysteresis
band with a full window stays NEAR. -/
theorem hysteresis_transitions (alpha rssi now : ℚ) (t : Tenant) :
    (t.isNear = false →
      ((updateTenant alpha rssi now t).isNear = true ↔
        ENTER_THRESHOLD ≤ newEwma alpha rssi t.ewma
          ∧ PACKETS_REQUIRED ≤ (updateTenant alpha rssi now t).packetTimes.length))
    ∧ (t.isNear = true →
      ((updateTenant alpha rssi now t).isNear = false ↔
        (newEwma alpha rssi t.ewma < EXIT_THRESHOLD
          ∨ (updateTenant alpha rssi now t).packetTimes.length < PACKETS_REQUIRED)))
    ∧ (t.isNear = true → EXIT_THRESHOLD ≤ newEwma alpha rssi t.ewma →
        PACKETS_REQUIRED ≤ (updateTenant alpha rssi now t).packetTimes.length →
        (updateTenant alpha rssi now t).isNear = true) := by
  have hu := updateTenant_isNear_eq alpha rssi now t
  refine ⟨?_, ?_, ?_⟩
  · intro h
    rw [hu, h]
    simp only [Bool.false_eq_true, if_false]
    split_ifs with hc
    · simp [hc]
    · simp [hc]
  · intro h
    rw [hu, h]
    simp only [if_true]
    split_ifs with hc
    · simp [hc]
    · simp [hc]
  · intro h h1 h2
    rw [hu, h]
    simp only [if_true]
    rw [if_neg]
    push_neg
    exact ⟨h1, h2⟩

theorem hysteresis_transitions_witness :
    (freshTenant "AA" "T").isNear = false
    ∧ ((updateTenant ALPHA_INIT (-60) 0 (freshTenant "AA" "T")).isNear = true ↔
        ENTER_THRESHOLD ≤ newEwma ALPHA_INIT (-60) (freshTenant "AA" "T").ewma
          ∧ PACKETS_REQUIRED ≤
              (updateTenant ALPHA_INIT (-60) 0 (freshTenant "AA" "T")).packetTimes.length) :=
  ⟨rfl, (hysteresis_transitions ALPHA_INIT (-60) 0 (freshTenant "AA" "T")).1 rfl⟩

/-- C1 (amended): window eviction happens only inside observation
updates.  On every update, all timestamps older than `WINDOW_SEC` are
evicted, so an update arriving after the whole previous window has
expired leaves exactly the new timestamp and classifies the tenant FAR
(one packet is fewer than `PACKETS_REQUIRED`); with no new observation
the serializer leaves `packetTimes` and `isNear` unchanged, so mere
passage of time does not drive `packetCount` to 0 or the classifier to
FAR. -/
theorem window_eviction_on_update (alpha rssi now : ℚ) (t : Tenant) :
    ((∀ x ∈ t.packetTimes, WINDOW_SEC < now - x) →
      (updateTenant alpha rssi now t).packetTimes = [now]
      ∧ (updateTenant alpha rssi now t).isNear = false)
    ∧ (serializeOne now t).2.packetTimes = t.packetTimes
    ∧ (serializeOne now t).2.isNear = t.isNear := by
  refine ⟨?_, ?_, ?_⟩
  · intro h
    have hw : (updateTenant alpha rssi now t).packetTimes = [now] := by
      show (t.packetTimes ++ [now]).dropWhile (fun x => decide (WINDOW_SEC < now - x)) = [now]
      rw [List.dropWhile_append]
      have h1 : t.packetTimes.dropWhile (fun x => decide (WINDOW_SEC < now - x)) = [] :=
        List.dropWhile_eq_nil_iff.mpr fun x hx => by simpa using h x hx
      rw [h1]
      simp only [List.isEmpty_nil, if_true, List.dropWhile_cons, List.dropWhile_nil]
      rw [if_neg]
      simp only [decide_eq_true_eq, sub_self, WINDOW_SEC]
      norm_num
    refine ⟨hw, ?_⟩
    have hlen : (updateTenant alpha rssi now t).packetTimes.length = 1 := by rw [hw]; rfl
    rw [updateTenant_isNear_eq, hlen]
    cases ht : t.isNear
    · simp [PACKETS_REQUIRED]
    · simp [PACKETS_REQUIRED]
  · unfold serializeOne
    split_ifs <;> rfl
  · unfold serializeOne
    split_ifs <;> rfl

unseal Rat.add Rat.mul Rat.sub in
theorem window_eviction_on_update_witness :
    (updateTenant ALPHA_INIT (-60) 6
      { macAddress := "AA", tenantId := "T", ewma := some (-60),
        packetTimes := [0, 1], isNear := true, lastSeenTs := some 1,
        extraRssis := [] }).packetTimes = [6]
    ∧ (updateTenant ALPHA_INIT (-60) 6
      { macAddress := "AA", tenantId := "T", ewma := some (-60),
        packetTimes := [0, 1], isNear := true, lastSeenTs := some 1,
        extraRssis := [] }).isNear = false :=
  (window_eviction_on_update ALPHA_INIT (-60) 6
    { macAddress := "AA", tenantId := "T", ewma := some (-60),
      packetTimes := [0, 1], isNear := true, lastSeenTs := some 1,
      extraRssis := [] }).1 (by decide)

unseal Rat.add Rat.mul Rat.sub in
theorem window_claim_counterexample :
    (mkRat 3 10 + WINDOW_SEC < 5)
    ∧ (serializeOne 5
        { macAddress := "AA", tenantId := "T", ewma := some (-60),
          packetTimes := [0, mkRat 1 10, mkRat 2 10, mkRat 3 10], isNear := true,
          lastSeenTs := some (mkRat 3 10), extraRssis := [] }).1
        = some { macAddress := "AA", tenantId := "T", ewma := some (-60), isNear := true,
                 lastSeenTs := some (mkRat 3 10), packetCount := 4, extraRssis := [] }
    ∧ (serializeOne 5
        { macAddress := "AA", tenantId := "T", ewma := some (-60),
          packetTimes := [0, mkRat 1 10, mkRat 2 10, mkRat 3 10], isNear := true,
          lastSeenTs := some (mkRat 3 10), extraRssis := [] }).2.packetTimes.length = 4
    ∧ (serializeOne 5
        { macAddress := "AA", tenantId := "T", ewma := some (-60),
          packetTimes := [0, mkRat 1 10, mkRat 2 10, mkRat 3 10], isNear := true,
          lastSeenTs := some (mkRat 3 10), extraRssis := [] }).2.isNear = true := by
  decide

unseal Rat.add Rat.mul Rat.sub in
theorem concrete_scenario_compute :
    scenarioAfterStrong.isNear = true
    ∧ scenarioAfterStrong.ewma = some (-60)
    ∧ PACKETS_REQUIRED ≤ scenarioAfterWeak1.packetTimes.length
    ∧ PACKETS_REQUIRED ≤ scenarioAfterWeak2.packetTimes.length
    ∧ PACKETS_REQUIRED ≤ scenarioAfterWeak3.packetTimes.length
    ∧ scenarioAfterWeak3.ewma = some (mkRat (-8988) 125)
    ∧ mkRat (-8988) 125 < EXIT_THRESHOLD
    ∧ scenarioAfterWeak3.isNear = false := by
  decide

/-- C8: with the repository constants
(`ENTER_THRESHOLD = -65`, `EXIT_THRESHOLD = -69`, `WINDOW_SEC = 4`,
`PACKETS_REQUIRED = 4`, `ALPHA = 0.8`), four observations at -60 dBm
spaced 0.1 s apart make the tenant NEAR; three further observations at
-72 dBm within the next second keep the packet count at or above 4
(the old samples are still inside the window) while the EWMA drops to
-71.904, below the exit threshold, so the tenant is FAR. -/
theorem concrete_scenario :
    scenarioAfterStrong.isNear = true
    ∧ scenarioAfterStrong.ewma = some (-60)
    ∧ PACKETS_REQUIRED ≤ scenarioAfterWeak1.packetTimes.length
    ∧ PACKETS_REQUIRED ≤ scenarioAfterWeak2.packetTimes.length
    ∧ PACKETS_REQUIRED ≤ scenarioAfterWeak3.packetTimes.length
    ∧ scenarioAfterWeak3.ewma = some (mkRat (-8988) 125)
    ∧ mkRat (-8988) 125 < EXIT_THRESHOLD
    ∧ scenarioAfterWeak3.isNear = false :=
  concrete_scenario_compute

/-- Per-tenant inclusion is exactly the negation of the staleness
skip. -/
theorem serializeOne_isSome (now : ℚ) (t : Tenant) :
    (serializeOne now t).1.isSome = !(staleSkip now t) := by
  unfold serializeOne
  cases h : staleSkip now t <;> simp [h]

/-- Characterization of the staleness skip in terms of `lastSeenTs`. -/
theorem staleSkip_eq_false_iff (now : ℚ) (t : Tenant) :
    staleSkip now t = false ↔
      (t.lastSeenTs = none
        ∨ ∃ ls, t.lastSeenTs = some ls ∧ now - ls ≤ TENANT_TIMEOUT_SEC) := by
  unfold staleSkip
  cases h : t.lastSeenTs with
  | none => simp [h]
  | some ls => simp [h]

/-- A tenant updated at time `now` is never skipped at time `now`. -/
theorem staleSkip_update_self (alpha rssi now : ℚ) (t : Tenant) :
    staleSkip now (updateTenant alpha rssi now t) = false := by
  show decide (TENANT_TIMEOUT_SEC < now - now) = false
  simp only [sub_self, TENANT_TIMEOUT_SEC, decide_eq_false_iff_not]
  norm_num

/-- C2 (amended): a tenant is included in the snapshot if and only if
its `lastSeenTs` is unset (never observed) or at most
`TENANT_TIMEOUT_SEC` old; the snapshot and post-state are the row-wise
filterMap/map of the per-tenant serialization; an omitted tenant is
left completely unchanged in internal tracking; and a tenant observed
at the current time is always included in a snapshot taken at that
time. -/
theorem snapshot_staleness_filter (now : ℚ) (t : Tenant) (ts : List Tenant) :
    (serialize_tenants now ts).1 = ts.filterMap (fun u => (serializeOne now u).1)
    ∧ (serialize_tenants now ts).2 = ts.map (fun u => (serializeOne now u).2)
    ∧ ((serializeOne now t).1.isSome ↔
        (t.lastSeenTs = none ∨ ∃ ls, t.lastSeenTs = some ls ∧ now - ls ≤ TENANT_TIMEOUT_SEC))
    ∧ (staleSkip now t = true → (serializeOne now t).2 = t)
    ∧ (∀ alpha rssi, (serializeOne now (updateTenant alpha rssi now t)).1.isSome) := by
  refine ⟨?_, ?_, ?_, ?_, ?_⟩
  · rw [serialize_tenants_eq]
  · rw [serialize_tenants_eq]
  · rw [show ((serializeOne now t).1.isSome = true)
        = ((!(staleSkip now t)) = true) from by rw [serializeOne_isSome]]
    rw [Bool.not_eq_true']
    exact staleSkip_eq_false_iff now t
  · intro h
    unfold serializeOne
    rw [h]
    rfl
  · intro alpha rssi
    rw [serializeOne_isSome, staleSkip_update_self]
    rfl

unseal Rat.add Rat.mul Rat.sub in
theorem snapshot_staleness_filter_witness :
    (serializeOne 20
      { macAddress := "AA", tenantId := "T", ewma := some (-60),
        packetTimes := [0], isNear := true, lastSeenTs := some 0,
        extraRssis := [-60] }).2
      = { macAddress := "AA", tenantId := "T", ewma := some (-60),
          packetTimes := [0], isNear := true, lastSeenTs := some 0,
          extraRssis := [-60] } :=
  (snapshot_staleness_filter 20
    { macAddress := "AA", tenantId := "T", ewma := some (-60),
      packetTimes := [0], isNear := true, lastSeenTs := some 0,
      extraRssis := [-60] } []).2.2.2.1 (by decide)

theorem snapshot_inclusion_counterexample :
    (freshTenant "AA" "T").lastSeenTs = none
    ∧ (serialize_tenants 0 [freshTenant "AA" "T"]).1.length = 1 := by
  decide

/-- C3 (amended): provided the snapshot contains no duplicate
normalized MACs, reconciliation yields at most one tracked entry per
normalized MAC.  A snapshot with duplicate normalized MACs instead
yields one tracked entry per snapshot row, so the duplicate MAC appears
twice (the loop appends every row; there is no last-write-wins
deduplication of the tracked list). -/
theorem sync_mac_uniqueness (snapshot : List RegEntry) (known : List Tenant)
    (h : (snapshot.map fun e => strUpper e.mac).Nodup) :
    ((sync_known_tenants snapshot known).map fun t => strUpper t.macAddress).Nodup := by
  rw [sync_macs_eq]
  exact h

theorem sync_mac_uniqueness_witness :
    ((sync_known_tenants [⟨"t1", "aa"⟩, ⟨"t2", "bb"⟩] []).map
      fun t => strUpper t.macAddress).Nodup :=
  sync_mac_uniqueness [⟨"t1", "aa"⟩, ⟨"t2", "bb"⟩] [] (by decide)

theorem sync_mac_uniqueness_counterexample :
    ((sync_known_tenants [⟨"t1", "AA:BB"⟩, ⟨"t2", "aa:bb"⟩] []).map fun t => t.macAddress)
      = ["AA:BB", "AA:BB"]
    ∧ ¬ ((sync_known_tenants [⟨"t1", "AA:BB"⟩, ⟨"t2", "aa:bb"⟩] []).map
          fun t => strUpper t.macAddress).Nodup := by
  decide

/-- C6: reconciliation produces one entry per snapshot row; a row whose
normalized MAC has an existing tracked tenant carries that tenant over
with every live field (`ewma`, `packetTimes`, `isNear`, `lastSeenTs`,
`extraRssis`, `macAddress`) unchanged and only `tenantId` overwritten —
in place on the shared dictionary, so under duplicate rows for an
existing MAC every such entry ends with the LAST row's id
(`lastIdFor`), and with no duplicate normalized MACs each row's own id;
a row with no existing tenant yields a fresh tenant; and every entry of
the new tracked list originates from a snapshot row, so a MAC only in
the old snapshot is no longer tracked. -/
theorem reconcile_preserves_state (snapshot : List RegEntry) (known : List Tenant) :
    (sync_known_tenants snapshot known).length = snapshot.length
    ∧ (∀ (i : Nat) (e : RegEntry), snapshot[i]? = some e →
        (∀ ex, lookupByMac known (strUpper e.mac) = some ex →
          (sync_known_tenants snapshot known)[i]?
            = some { ex with tenantId := lastIdFor snapshot (strUpper e.mac) e.id }
          ∧ ((snapshot.map fun r => strUpper r.mac).Nodup →
            (sync_known_tenants snapshot known)[i]? = some { ex with tenantId := e.id }))
        ∧ (lookupByMac known (strUpper e.mac) = none →
          (sync_known_tenants snapshot known)[i]? = some (freshTenant (strUpper e.mac) e.id)))
    ∧ (∀ t, t ∈ sync_known_tenants snapshot known →
        ∃ e ∈ snapshot, t = syncOne snapshot known e) := by
  refine ⟨List.length_map _ _, ?_, ?_⟩
  · intro i e he
    have he' : e ∈ snapshot := by
      rcases List.getElem?_eq_some.mp he with ⟨hlt, hEq⟩
      exact hEq ▸ List.getElem_mem _
    constructor
    · intro ex hex
      constructor
      · unfold sync_known_tenants
        rw [List.getElem?_map, he]
        simp [syncOne, hex]
      · intro hn
        unfold sync_known_tenants
        rw [List.getElem?_map, he]
        simp [syncOne, hex, lastIdFor_of_nodup snapshot e e.id hn he']
    · intro hnone
      unfold sync_known_tenants
      rw [List.getElem?_map, he]
      simp [syncOne, hnone]
  · intro t ht
    rcases List.mem_map.mp ht with ⟨e, he, rfl⟩
    exact ⟨e, he, rfl⟩

theorem reconcile_preserves_state_witness :
    (sync_known_tenants [⟨"new", "aa"⟩]
      [{ macAddress := "AA", tenantId := "old", ewma := some (-60),
         packetTimes := [0], isNear := true, lastSeenTs := some 0,
         extraRssis := [-60] }])[0]?
      = some { macAddress := "AA", tenantId := "new", ewma := some (-60),
               packetTimes := [0], isNear := true, lastSeenTs := some 0,
               extraRssis := [-60] } :=
  (((reconcile_preserves_state [⟨"new", "aa"⟩]
      [{ macAddress := "AA", tenantId := "old", ewma := some (-60),
         packetTimes := [0], isNear := true, lastSeenTs := some 0,
         extraRssis := [-60] }]).2.1 0 ⟨"new", "aa"⟩ rfl).1
    { macAddress := "AA", tenantId := "old", ewma := some (-60),
      packetTimes := [0], isNear := true, lastSeenTs := some 0,
      extraRssis := [-60] } (by decide)).2 (by decide)

/-- C7: starting from a drained buffer, feeding N observations between
two publish ticks makes the next tick's `extraRssis` exactly those N
RSSI values in arrival order, drains the buffer as part of building the
snapshot, and the following tick (absent new samples) reports an empty
`extraRssis` — no sample is duplicated across ticks. -/
theorem extraRssis_exactly_once (alpha : ℚ) (obs : List (ℚ × ℚ)) (t0 : Tenant)
    (now1 now2 : ℚ) (h0 : t0.extraRssis = [])
    (h1 : staleSkip now1 (feedObservations alpha obs t0) = false)
    (h2 : staleSkip now2 ((serializeOne now1 (feedObservations alpha obs t0)).2) = false) :
    (feedObservations alpha obs t0).extraRssis = obs.map Prod.fst
    ∧ ((serializeOne now1 (feedObservations alpha obs t0)).1.map
        fun s => s.extraRssis) = some (obs.map Prod.fst)
    ∧ (serializeOne now1 (feedObservations alpha obs t0)).2.extraRssis = []
    ∧ ((serializeOne now2 ((serializeOne now1 (feedObservations alpha obs t0)).2)).1.map
        fun s => s.extraRssis) = some [] := by
  have hfeed : (feedObservations alpha obs t0).extraRssis = obs.map Prod.fst := by
    rw [feed_extraRssis, h0]
    simp
  refine ⟨hfeed, ?_, ?_, ?_⟩
  · simp [serializeOne, h1, hfeed]
  · simp [serializeOne, h1]
  · simp only [serializeOne, h1, if_false, Bool.false_eq_true] at h2 ⊢
    simp [h2]

unseal Rat.add Rat.mul Rat.sub in
theorem extraRssis_exactly_once_witness :
    ((serializeOne 1 (feedObservations ALPHA_INIT [((-60 : ℚ), (0 : ℚ))]
        (freshTenant "AA" "T"))).1.map fun s => s.extraRssis) = some [-60]
    ∧ ((serializeOne 2 ((serializeOne 1 (feedObservations ALPHA_INIT
        [((-60 : ℚ), (0 : ℚ))] (freshTenant "AA" "T"))).2)).1.map
        fun s => s.extraRssis) = some [] := by
  have h := extraRssis_exactly_once ALPHA_INIT [((-60 : ℚ), (0 : ℚ))]
    (freshTenant "AA" "T") 1 2 rfl (by decide) (by decide)
  exact ⟨h.2.1, h.2.2.2⟩

/-- C10: a publish tick with zero subscribers builds no snapshot and
returns every tenant (including the pending `extraRssis` buffer)
unchanged; pending samples therefore accumulate, and the first snapshot
built once a subscriber is connected reports the whole accumulated
buffer and drains it. -/
theorem no_subscriber_tick_frame (now : ℚ) (ts : List Tenant) :
    broadcast_tenants 0 now ts = (none, ts)
    ∧ (∀ (alpha : ℚ) (obs : List (ℚ × ℚ)) (t : Tenant) (n : Nat) (now2 : ℚ),
        staleSkip now2 (feedObservations alpha obs t) = false →
        ((broadcast_tenants (n + 1) now2 [feedObservations alpha obs t]).1.map
            fun l => l.map fun s => s.extraRssis)
          = some [t.extraRssis ++ obs.map Prod.fst]
        ∧ (broadcast_tenants (n + 1) now2 [feedObservations alpha obs t]).2
          = [{ feedObservations alpha obs t with extraRssis := [] }]) := by
  refine ⟨rfl, ?_⟩
  intro alpha obs t n now2 h
  constructor
  · simp [broadcast_tenants, serialize_tenants, serializeOne, h, feed_extraRssis]
  · simp [broadcast_tenants, serialize_tenants, serializeOne, h]

unseal Rat.add Rat.mul Rat.sub in
theorem no_subscriber_tick_frame_witness :
    ((broadcast_tenants 1 1 [feedObservations ALPHA_INIT [((-60 : ℚ), (0 : ℚ))]
        (freshTenant "AA" "T")]).1.map
      fun l => l.map fun s => s.extraRssis) = some [[-60]] := by
  have h := (no_subscriber_tick_frame 1 []).2 ALPHA_INIT [((-60 : ℚ), (0 : ℚ))]
    (freshTenant "AA" "T") 0 1 (by decide)
  simpa using h.1
